import Mathlib

/-!
# Configuration template `firmware/config_example.h`

The header consists of `#pragma once`, three comment lines and six object-like
macro definitions, each expanding to one string literal.  Two layers are
embedded:

* the macros themselves, as Lean string constants carrying the source names
  (`DEVICE_ID`, `DEVICE_SECRET`, `POST_URL`, `APN`, `APN_USER`, `APN_PASS`);
* the text of the header, line by line, together with a small reader for
  `#define` directives, so that statements about *which* names the header
  defines, and how often, are statements about the file rather than about the
  list of constants above.
-/

namespace ConfigExample

/-! ## The macros of the header -/

/-- Line 5: `#define DEVICE_ID       "SOLAR_SITE01"`. -/
def DEVICE_ID : String := "SOLAR_SITE01"

/-- Line 6: `#define DEVICE_SECRET   "<SET_YOUR_LONG_RANDOM_SECRET>"`. -/
def DEVICE_SECRET : String := "<SET_YOUR_LONG_RANDOM_SECRET>"

/-- Line 8: `#define POST_URL        "http://example.com/solar_mppt_monitor/ingest.php"`. -/
def POST_URL : String := "http://example.com/solar_mppt_monitor/ingest.php"

/-- Line 11: `#define APN             "<YOUR_APN>"`. -/
def APN : String := "<YOUR_APN>"

/-- Line 12: `#define APN_USER        "<YOUR_APN_USER>"`. -/
def APN_USER : String := "<YOUR_APN_USER>"

/-- Line 13: `#define APN_PASS        "<YOUR_APN_PASS>"`. -/
def APN_PASS : String := "<YOUR_APN_PASS>"

/-- The six configuration keys the firmware build expects. -/
inductive Key where
  | DEVICE_ID
  | DEVICE_SECRET
  | POST_URL
  | APN
  | APN_USER
  | APN_PASS
  deriving DecidableEq, Repr

/-- Macro name of a key, as spelled in the header. -/
def Key.name : Key → String
  | .DEVICE_ID => "DEVICE_ID"
  | .DEVICE_SECRET => "DEVICE_SECRET"
  | .POST_URL => "POST_URL"
  | .APN => "APN"
  | .APN_USER => "APN_USER"
  | .APN_PASS => "APN_PASS"

/-- All keys, in the order in which the header defines them. -/
def Key.all : List Key :=
  [.DEVICE_ID, .DEVICE_SECRET, .POST_URL, .APN, .APN_USER, .APN_PASS]

/-- A configuration gives every key a string value. -/
abbrev Config := Key → String

/-- The configuration obtained by including the header unedited. -/
def template : Config
  | .DEVICE_ID => DEVICE_ID
  | .DEVICE_SECRET => DEVICE_SECRET
  | .POST_URL => POST_URL
  | .APN => APN
  | .APN_USER => APN_USER
  | .APN_PASS => APN_PASS

/-! ## The text of the header -/

/-- The thirteen lines of `firmware/config_example.h`, verbatim. -/
def config_example_h : List String :=
  [ "#pragma once",
    "// Copy this file to config.h and fill values.",
    "// IMPORTANT: Do NOT commit config.h (it is in .gitignore).",
    "",
    "#define DEVICE_ID       \"SOLAR_SITE01\"",
    "#define DEVICE_SECRET   \"<SET_YOUR_LONG_RANDOM_SECRET>\"",
    "",
    "#define POST_URL        \"http://example.com/solar_mppt_monitor/ingest.php\"",
    "",
    "// LTE APN settings",
    "#define APN             \"<YOUR_APN>\"",
    "#define APN_USER        \"<YOUR_APN_USER>\"",
    "#define APN_PASS        \"<YOUR_APN_PASS>\"" ]

/-! ## Reading `#define` directives -/

/-- Horizontal white space inside a line. -/
def isBlank (c : Char) : Bool := c == ' ' || c == '\t'

/-- Characters that may start an identifier. -/
def isIdentStart (c : Char) : Bool :=
  (65 ≤ c.toNat && c.toNat ≤ 90) || (97 ≤ c.toNat && c.toNat ≤ 122) || c == '_'

/-- Characters that may continue an identifier. -/
def isIdentChar (c : Char) : Bool :=
  isIdentStart c || (48 ≤ c.toNat && c.toNat ≤ 57)

/-- Drop leading blanks. -/
def skipBlanks : List Char → List Char
  | [] => []
  | c :: cs => if isBlank c then skipBlanks cs else c :: cs

/-- Remove `pre` from the front of a line, when it is there. -/
def dropLeading : List Char → List Char → Option (List Char)
  | [], cs => some cs
  | _ :: _, [] => none
  | p :: ps, c :: cs => if p = c then dropLeading ps cs else none

/-- Split a line into its longest leading run of identifier characters and the rest. -/
def spanIdent : List Char → List Char × List Char
  | [] => ([], [])
  | c :: cs =>
    if isIdentChar c then
      let r := spanIdent cs
      (c :: r.1, r.2)
    else ([], c :: cs)

/-- Preprocessing tokens of a replacement list, as far as the header needs them:
a string literal (with the spelling of its body) or any other character. -/
inductive Tok where
  | str (body : List Char)
  | other (c : Char)
  deriving DecidableEq, Repr

/-- State of the token reader: between tokens, inside a string literal (with the
body read so far, last character first), or right after a backslash inside one. -/
inductive Mode where
  | code
  | inStr (acc : List Char)
  | esc (acc : List Char)

/-- Tokens of a replacement list.  A string literal is one token and runs to
the next quote that no backslash precedes; blanks separate tokens; `//` starts a
comment that runs to the end of the line; every other character is a token of
its own.  A literal left open at the end of the line gives `none`. -/
def lex : Mode → List Char → Option (List Tok)
  | .code, [] => some []
  | .code, c :: rest =>
    if c = '"' then lex (.inStr []) rest
    else if c = '/' ∧ rest.head? = some '/' then some []
    else if isBlank c then lex .code rest
    else (lex .code rest).map (fun ts => Tok.other c :: ts)
  | .inStr _, [] => none
  | .inStr acc, c :: rest =>
    if c = '"' then (lex .code rest).map (fun ts => Tok.str acc.reverse :: ts)
    else if c = '\\' then lex (.esc (c :: acc)) rest
    else lex (.inStr (c :: acc)) rest
  | .esc _, [] => none
  | .esc acc, c :: rest => lex (.inStr (c :: acc)) rest

/-- An object-like macro definition: its name and its replacement list. -/
structure Define where
  name : String
  body : List Tok
  deriving DecidableEq, Repr

/-- Read one line as a `#define` directive: optional blanks, `#`, optional
blanks, the word `define`, at least one blank, an identifier, and the
replacement list.  Any other line (another directive, a comment, an empty
line) gives `none`. -/
def readDefine (line : String) : Option Define :=
  match skipBlanks line.toList with
  | [] => none
  | h :: r1 =>
    if h = '#' then
      match dropLeading "define".toList (skipBlanks r1) with
      | none => none
      | some [] => none
      | some (b :: r2) =>
        if isBlank b then
          match spanIdent (skipBlanks r2) with
          | ([], _) => none
          | (n :: ns, r3) =>
            if isIdentStart n then
              (lex .code r3).map (fun ts => ⟨String.mk (n :: ns), ts⟩)
            else none
        else none
    else none

/-- The macro definitions of a header, in file order. -/
def defines (lines : List String) : List Define :=
  lines.filterMap readDefine

/-- How many definitions of a header carry the given name. -/
def timesDefined (lines : List String) (name : String) : Nat :=
  ((defines lines).filter (fun d => d.name = name)).length

/-! ## Predicates on values -/

/-- The value mentions an angle bracket, opening or closing. -/
def hasAngle (s : String) : Bool :=
  s.toList.any (fun c => c == '<' || c == '>')

/-- The value starts with an opening angle bracket. -/
def startsWithOpen (s : String) : Bool :=
  s.toList.head? == some '<'

/-- The value ends with a closing angle bracket. -/
def endsWithClose (s : String) : Bool :=
  s.toList.getLast? == some '>'

/-- Characters a marker is spelled with: upper-case ASCII letters and the underscore. -/
def isMarkerChar (c : Char) : Bool :=
  (65 ≤ c.toNat && c.toNat ≤ 90) || c == '_'

/-- Code point below 128. -/
def isAscii (c : Char) : Bool := c.toNat < 128

/-- ASCII control character: below the space, or DEL. -/
def isControl (c : Char) : Bool := c.toNat < 32 || c.toNat == 127

/-- A closing bracket after at least one character of text. -/
def closesAfterText : List Char → Bool
  | [] => false
  | _ :: rest => rest.contains '>'

/-- Some `<` of the characters is followed by text and then a `>`. -/
def placeholderIn : List Char → Bool
  | [] => false
  | c :: rest => (c == '<' && closesAfterText rest) || placeholderIn rest

/-- Modelled from the spec: the test the build-time verification routine applies
to a value.  The routine is not part of the sources; the spec describes it as
detecting "placeholder markers such as angle-bracketed text" and confirming that
"no bracketed placeholder substrings remain".  A value is flagged when it
contains a `<`, then text, then a `>`. -/
def hasPlaceholder (s : String) : Bool := placeholderIn s.toList

/-- Modelled from the spec: the report of the verification routine, which
"reports exactly which key(s) are unfilled": the keys whose value is flagged,
in header order. -/
def unfilled (cfg : Config) : List Key :=
  Key.all.filter (fun k => hasPlaceholder (cfg k))

/-- Modelled from the spec: the verdict of the verification routine; "the build
proceeds" when nothing is reported and "the build is refused" otherwise. -/
def buildProceeds (cfg : Config) : Bool := (unfilled cfg).isEmpty

/-- The operator's edit of the template: the keys given a value take it, the
other keys keep the value of the template. -/
def fill (r : Key → Option String) : Config :=
  fun k => (r k).getD (template k)

/-- The key whose template value is the given string, if there is one. -/
def keyOfValue (v : String) : Option Key :=
  Key.all.find? (fun k => template k == v)

/-- A sample edit: only the device secret is filled in. -/
def secretOnly : Key → Option String
  | .DEVICE_SECRET => some "0123456789abcdef0123456789abcdef"
  | _ => none

/-- A sample edit: the four bracketed values are filled in, the device
identifier and the URL are left as the template has them. -/
def bracketedOnly : Key → Option String
  | .DEVICE_SECRET => some "0123456789abcdef0123456789abcdef"
  | .APN => some "internet"
  | .APN_USER => some "user"
  | .APN_PASS => some "pass"
  | _ => none

/-! ## Helper lemmas -/

theorem Key.mem_all (k : Key) : k ∈ Key.all := by
  cases k <;> decide

theorem defines_config_example_h :
    defines config_example_h =
      Key.all.map (fun k => ⟨k.name, [Tok.str (template k).toList]⟩) := by
  decide

theorem placeholderIn_mem {cs : List Char} (h : placeholderIn cs = true) :
    '<' ∈ cs := by
  induction cs with
  | nil => simp [placeholderIn] at h
  | cons c rest ih =>
    simp only [placeholderIn, Bool.or_eq_true, Bool.and_eq_true, beq_iff_eq] at h
    rcases h with ⟨hc, _⟩ | h
    · simp [hc]
    · exact List.mem_cons_of_mem _ (ih h)

theorem hasAngle_of_hasPlaceholder {s : String} (h : hasPlaceholder s = true) :
    hasAngle s = true := by
  have hm := placeholderIn_mem h
  simp only [hasAngle, List.any_eq_true]
  exact ⟨'<', hm, by decide⟩

theorem hasPlaceholder_eq_false {s : String} (h : hasAngle s = false) :
    hasPlaceholder s = false := by
  cases hp : hasPlaceholder s with
  | false => rfl
  | true => rw [hasAngle_of_hasPlaceholder hp] at h; cases h

/-! ## The header defines the six keys, once each -/

/-- C1: the header defines each of the six recognised keys exactly once, each to
a single string literal (the value the template gives the key), and defines no
other name: its definitions are, in file order, exactly the six keys, and any
name is defined once when it is one of the six and not at all otherwise. -/
theorem template_defines_each_key_once :
    defines config_example_h =
        Key.all.map (fun k => ⟨k.name, [Tok.str (template k).toList]⟩) ∧
      (Key.all.map Key.name).Nodup ∧
      (∀ k : Key, timesDefined config_example_h k.name = 1) ∧
      (∀ name : String, timesDefined config_example_h name =
        if name ∈ Key.all.map Key.name then 1 else 0) := by
  refine ⟨defines_config_example_h, by decide, ?_, ?_⟩
  · intro k
    cases k <;> decide
  · intro name
    unfold timesDefined
    rw [defines_config_example_h]
    simp only [Key.all, Key.name, List.map, List.filter_cons, List.filter_nil,
      List.mem_cons, List.mem_singleton, List.not_mem_nil, or_false, decide_eq_true_eq]
    by_cases h1 : name = "DEVICE_ID"
    · subst h1; decide
    by_cases h2 : name = "DEVICE_SECRET"
    · subst h2; decide
    by_cases h3 : name = "POST_URL"
    · subst h3; decide
    by_cases h4 : name = "APN"
    · subst h4; decide
    by_cases h5 : name = "APN_USER"
    · subst h5; decide
    by_cases h6 : name = "APN_PASS"
    · subst h6; decide
    simp [h1, h2, h3, h4, h5, h6, Ne.symm h1, Ne.symm h2, Ne.symm h3, Ne.symm h4,
      Ne.symm h5, Ne.symm h6]

/-! ## The unedited template is detected -/

/-- C2: the unedited template is told apart from a completed configuration by
the bracketed-placeholder check: the check flags at least one of its six values
(it reports DEVICE_SECRET, APN, APN_USER and APN_PASS) and so refuses it. -/
theorem template_is_rejected :
    (∃ k : Key, hasPlaceholder (template k) = true) ∧
      unfilled template = [.DEVICE_SECRET, .APN, .APN_USER, .APN_PASS] ∧
      buildProceeds template = false := by
  refine ⟨⟨.DEVICE_SECRET, by decide⟩, by decide, by decide⟩

/-! ## Character set of the values -/

/-- C4: every character of each of the six template values is ASCII (code point
below 128) and is not a control character. -/
theorem template_values_ascii :
    ∀ k : Key, (template k).toList.all (fun c => isAscii c && !isControl c) = true := by
  intro k
  cases k <;> decide

/-- C5: the value of POST_URL is the scheme prefix http:// followed by a
non-empty host (in which no slash occurs) and a path that starts with a slash,
and no character of it is white space or an angle bracket. -/
theorem post_url_is_http_url :
    ∃ host path : List Char,
      POST_URL.toList = "http://".toList ++ host ++ path ∧
        host ≠ [] ∧ '/' ∉ host ∧ path.head? = some '/' ∧
        POST_URL.toList.all (fun c => !c.isWhitespace && c != '<' && c != '>') = true := by
  refine ⟨"example.com".toList, "/solar_mppt_monitor/ingest.php".toList, ?_⟩
  decide

/-! ## The values identify their keys -/

/-- C9: the six template values are non-empty and pairwise distinct, so the key
of an unedited value is recovered from the value alone. -/
theorem template_values_distinct :
    (∀ k : Key, template k ≠ "") ∧
      Function.Injective template ∧
      (∀ k : Key, keyOfValue (template k) = some k) := by
  have hk : ∀ k : Key, keyOfValue (template k) = some k := by
    intro k
    cases k <;> decide
  refine ⟨?_, ?_, hk⟩
  · intro k
    cases k <;> decide
  · intro j k hjk
    have hj := hk j
    rw [hjk, hk k] at hj
    exact (Option.some.inj hj).symm

/-! ## What the check reports after an edit -/

/-- C3: when some keys of the template are given values without an angle
bracket and the others keep their template value, the check reports exactly the
keys whose template value is a bracketed placeholder and that were not given a
value (those among DEVICE_SECRET, APN, APN_USER, APN_PASS left alone), and the
build proceeds if and only if every bracketed placeholder was replaced. -/
theorem unfilled_after_fill (r : Key → Option String)
    (hr : ∀ k v, r k = some v → hasAngle v = false) :
    (∀ k : Key, k ∈ unfilled (fill r) ↔ (hasPlaceholder (template k) = true ∧ r k = none)) ∧
      unfilled (fill r) =
        [Key.DEVICE_SECRET, Key.APN, Key.APN_USER, Key.APN_PASS].filter
          (fun k => (r k).isNone) ∧
      (buildProceeds (fill r) = true ↔
        ∀ k : Key, hasPlaceholder (template k) = true → r k ≠ none) := by
  have key : ∀ k : Key,
      hasPlaceholder (fill r k) = (hasPlaceholder (template k) && (r k).isNone) := by
    intro k
    unfold fill
    cases h : r k with
    | none => simp
    | some v => simp [hasPlaceholder_eq_false (hr k v h)]
  have hmem : ∀ k : Key,
      k ∈ unfilled (fill r) ↔ (hasPlaceholder (template k) = true ∧ r k = none) := by
    intro k
    simp [unfilled, key, Key.mem_all, Option.isNone_iff_eq_none]
  have hfl : ∀ k : Key, hasPlaceholder (template k) =
      decide (k ∈ [Key.DEVICE_SECRET, Key.APN, Key.APN_USER, Key.APN_PASS]) := by
    intro k
    cases k <;> decide
  refine ⟨hmem, ?_, ?_⟩
  · simp only [unfilled, key, Key.all, List.filter_cons, List.filter_nil]
    rw [hfl .DEVICE_ID, hfl .DEVICE_SECRET, hfl .POST_URL, hfl .APN, hfl .APN_USER,
      hfl .APN_PASS]
    simp
  · unfold buildProceeds
    rw [List.isEmpty_iff]
    constructor
    · intro he k hk hn
      have : k ∈ unfilled (fill r) := (hmem k).2 ⟨hk, hn⟩
      rw [he] at this
      cases this
    · intro h
      apply List.eq_nil_iff_forall_not_mem.2
      intro k hk
      exact h k ((hmem k).1 hk).1 ((hmem k).1 hk).2

/-- Witness for C3 at the edit that fills in the device secret only: the three
APN keys are reported and the build is refused. -/
theorem unfilled_after_fill_witness :
    (∀ k v, secretOnly k = some v → hasAngle v = false) ∧
      unfilled (fill secretOnly) = [Key.APN, Key.APN_USER, Key.APN_PASS] ∧
      buildProceeds (fill secretOnly) = false :=
  have hr : ∀ k v, secretOnly k = some v → hasAngle v = false := by
    intro k v h
    cases k <;> simp [secretOnly] at h
    subst h
    decide
  ⟨hr, by rw [(unfilled_after_fill secretOnly hr).2.1]; decide, by decide⟩

/-! ## Which values carry a marker -/

/-- C7: the template values that contain an angle bracket are exactly those of
DEVICE_SECRET, APN, APN_USER and APN_PASS; DEVICE_ID is "SOLAR_SITE01" and
POST_URL is "http://example.com/solar_mppt_monitor/ingest.php", neither with a
< or a >.  Hence, for any check that flags only values containing an angle
bracket, a configuration that leaves DEVICE_ID and POST_URL at their template
values is never flagged at these two keys, and passes the check as a whole once
its other values are free of angle brackets. -/
theorem unbracketed_keys_pass (chk : String → Bool)
    (hchk : ∀ s, chk s = true → hasAngle s = true)
    (cfg : Config)
    (hid : cfg .DEVICE_ID = template .DEVICE_ID)
    (hurl : cfg .POST_URL = template .POST_URL) :
    (∀ k : Key, hasAngle (template k) = true ↔
        k ∈ [Key.DEVICE_SECRET, Key.APN, Key.APN_USER, Key.APN_PASS]) ∧
      DEVICE_ID = "SOLAR_SITE01" ∧
      POST_URL = "http://example.com/solar_mppt_monitor/ingest.php" ∧
      ('<' ∉ DEVICE_ID.toList ∧ '>' ∉ DEVICE_ID.toList) ∧
      ('<' ∉ POST_URL.toList ∧ '>' ∉ POST_URL.toList) ∧
      chk (cfg .DEVICE_ID) = false ∧
      chk (cfg .POST_URL) = false ∧
      ((∀ k : Key, k ≠ .DEVICE_ID → k ≠ .POST_URL → hasAngle (cfg k) = false) →
        Key.all.filter (fun k => chk (cfg k)) = []) := by
  have hno : ∀ s, hasAngle s = false → chk s = false := by
    intro s hs
    cases hc : chk s with
    | false => rfl
    | true => rw [hchk s hc] at hs; cases hs
  have h1 : chk (cfg .DEVICE_ID) = false := by
    rw [hid]; exact hno _ (by decide)
  have h2 : chk (cfg .POST_URL) = false := by
    rw [hurl]; exact hno _ (by decide)
  refine ⟨?_, rfl, rfl, by decide, by decide, h1, h2, ?_⟩
  · intro k
    cases k <;> decide
  · intro hrest
    apply List.eq_nil_iff_forall_not_mem.2
    intro k hk
    have hc : chk (cfg k) = true := by simpa using (List.mem_filter.1 hk).2
    by_cases hkid : k = .DEVICE_ID
    · subst hkid; rw [h1] at hc; cases hc
    by_cases hkurl : k = .POST_URL
    · subst hkurl; rw [h2] at hc; cases hc
    rw [hno _ (hrest k hkid hkurl)] at hc
    cases hc

/-- Witness for C7 at the bracketed-placeholder check and the configuration that
fills in the four bracketed values and leaves DEVICE_ID and POST_URL alone. -/
theorem unbracketed_keys_pass_witness :
    (∀ s, hasPlaceholder s = true → hasAngle s = true) ∧
      fill bracketedOnly .DEVICE_ID = template .DEVICE_ID ∧
      fill bracketedOnly .POST_URL = template .POST_URL ∧
      hasPlaceholder (fill bracketedOnly .DEVICE_ID) = false ∧
      hasPlaceholder (fill bracketedOnly .POST_URL) = false ∧
      Key.all.filter (fun k => hasPlaceholder (fill bracketedOnly k)) = [] :=
  have h := unbracketed_keys_pass hasPlaceholder
    (fun _ hs => hasAngle_of_hasPlaceholder hs) (fill bracketedOnly) rfl rfl
  ⟨fun _ hs => hasAngle_of_hasPlaceholder hs, rfl, rfl, h.2.2.2.2.2.1, h.2.2.2.2.2.2.1,
    h.2.2.2.2.2.2.2 (by intro k _ _; cases k <;> decide)⟩

/-- C8: every template value that contains an angle bracket is one whole marker:
a <, a non-empty interior of upper-case ASCII letters and underscores, and a >,
with no further < or >.  Hence the three checks "starts with <", "ends with >"
and "contains a <...> substring" agree on every template value, each flagging
DEVICE_SECRET, APN, APN_USER and APN_PASS and nothing else. -/
theorem bracketed_values_are_whole_markers (k : Key)
    (hk : hasAngle (template k) = true) :
    (∃ interior : List Char,
        (template k).toList = '<' :: interior ++ ['>'] ∧
          interior ≠ [] ∧ interior.all isMarkerChar = true) ∧
      (template k).toList.count '<' = 1 ∧
      (template k).toList.count '>' = 1 ∧
      (∀ j : Key, startsWithOpen (template j) = placeholderIn (template j).toList ∧
        endsWithClose (template j) = placeholderIn (template j).toList ∧
        placeholderIn (template j).toList =
          decide (j ∈ [Key.DEVICE_SECRET, Key.APN, Key.APN_USER, Key.APN_PASS])) := by
  have hall : ∀ j : Key, startsWithOpen (template j) = placeholderIn (template j).toList ∧
      endsWithClose (template j) = placeholderIn (template j).toList ∧
      placeholderIn (template j).toList =
        decide (j ∈ [Key.DEVICE_SECRET, Key.APN, Key.APN_USER, Key.APN_PASS]) := by
    intro j
    cases j <;> decide
  refine ⟨⟨((template k).toList.drop 1).dropLast, ?_⟩, ?_, ?_, hall⟩
  · cases k
    · exact absurd hk (by decide)
    · decide
    · exact absurd hk (by decide)
    · decide
    · decide
    · decide
  · cases k
    · exact absurd hk (by decide)
    · decide
    · exact absurd hk (by decide)
    · decide
    · decide
    · decide
  · cases k
    · exact absurd hk (by decide)
    · decide
    · exact absurd hk (by decide)
    · decide
    · decide
    · decide

/-- Witness for C8 at the key APN, whose template value is the marker <YOUR_APN>. -/
theorem bracketed_values_are_whole_markers_witness :
    hasAngle (template .APN) = true ∧
      (∃ interior : List Char,
        (template .APN).toList = '<' :: interior ++ ['>'] ∧
          interior ≠ [] ∧ interior.all isMarkerChar = true) ∧
      (template .APN).toList.count '<' = 1 ∧
      (template .APN).toList.count '>' = 1 :=
  have h := bracketed_values_are_whole_markers .APN (by decide)
  ⟨by decide, h.1, h.2.1, h.2.2.1⟩

end ConfigExample
